import Mathlib

/-!
Shallow embedding of the CookShare recipe-sharing application
(`src/app/main.py` plus the maintenance script
`src/app/tools/fix_plus_in_paths.py`), together with theorems
checking the natural-language specification against it.

Conventions of the embedding:
* machine integers are `Nat`/`Int` (no overflow is relevant here);
* the SQLite database is a record of lists of rows, one list per table;
* the media directory is a list of `(filename, file-state)` pairs;
* the PIL image library is modelled on the level of image dimensions,
  orientation metadata and the operation actually applied (crop applied
  or not), which is what the claims talk about;
* random `uuid4().hex` filenames are passed in explicitly as parameters;
* an HTTP handler is a pure function from (db, media, session, inputs)
  to (response, db, media).
-/

set_option linter.unusedVariables false

namespace CookShare

/-! ## Small Python helpers -/

/-- Python `str.strip()` (whitespace trimming) as used throughout `main.py`,
implemented structurally over the character list so that it reduces in the
kernel. -/
def stripS (s : String) : String :=
  ⟨(((s.data.dropWhile Char.isWhitespace).reverse.dropWhile Char.isWhitespace).reverse)⟩

/-- Python `x or None` applied to an optional string: an absent or empty
string becomes `none` (the empty string is falsy in Python). -/
def orNoneStr : Option String → Option String
  | none => none
  | some s => if s = "" then none else some s

/-- Parses a decimal literal the way Python's `int(float(v))` does on
finite decimal strings: optional sign, integer digits, optional fraction
(truncated toward zero).  Anything else yields `none` (the surrounding
Python code catches the exception and returns `None`). -/
def pyNum? (s : String) : Option Int :=
  let t := (stripS s).data
  let sgn : Bool × List Char :=
    match t with
    | '-' :: rest => (true, rest)
    | '+' :: rest => (false, rest)
    | _ => (false, t)
  let ip := sgn.2.takeWhile Char.isDigit
  let rest := sgn.2.dropWhile Char.isDigit
  let frac : Option (List Char × List Char) :=
    match rest with
    | '.' :: r => some (r.takeWhile Char.isDigit, r.dropWhile Char.isDigit)
    | [] => some ([], [])
    | _ => none
  match frac with
  | none => none
  | some (fdigits, tail) =>
    if tail ≠ [] then none
    else if ip = [] ∧ fdigits = [] then none
    else
      let n : Nat := ip.foldl (fun a c => a * 10 + (c.toNat - 48)) 0
      some (if sgn.1 then -(n : Int) else (n : Int))

/-- `_to_float_or_none` from `main.py`, composed with the `int()` truncation
the callers apply to the parsed value before using it: `None` and `""` map
to `none`, unparseable strings map to `none`. -/
def _to_float_or_none : Option String → Option Int
  | none => none
  | some s => if s = "" then none else pyNum? s

/-- `_to_int_or_none` from `main.py`: `int(float(v))` with `None`/`""`/parse
failures mapped to `none`. -/
def _to_int_or_none : Option String → Option Int
  | none => none
  | some s => if s = "" then none else pyNum? s

/-! ## Image pipeline model -/

/-- The decoded content of an uploaded file: either bytes PIL cannot decode,
or an image with pixel dimensions and an EXIF-orientation flag saying
whether `ImageOps.exif_transpose` swaps the two dimensions. -/
inductive ImageData where
  | invalid
  | valid (width height : Nat) (exifSwap : Bool)
deriving DecidableEq

/-- An uploaded file: a filename (the empty string models a falsy
`upload.filename`) and its decoded content. -/
structure Upload where
  filename : String
  content : ImageData
deriving DecidableEq

/-- Result of re-encoding an image: final dimensions, plus the crop
rectangle `(x, y, w, h)` that was applied (or `none` if no crop ran). -/
structure ProcImage where
  width : Nat
  height : Nat
  cropped : Option (Int × Int × Int × Int)
deriving DecidableEq

/-- State of a file in `app/media`: `raw` when only `out.write_bytes(data)`
ran (decode or processing raised, the exception was swallowed, so the
original upload bytes remain), `processed` when `im.save` re-encoded it. -/
inductive FileState where
  | raw (original : ImageData)
  | processed (img : ProcImage)
deriving DecidableEq

/-- The media directory: filenames with the state of each stored file. -/
abbrev Media := List (String × FileState)

/-- Effect of `ImageOps.exif_transpose` on dimensions: swaps them when the
orientation metadata says so. -/
def exifDims (swap : Bool) (w h : Nat) : Nat × Nat :=
  if swap then (h, w) else (w, h)

/-- Model of `im.thumbnail((1600, 1600))`: downscale so neither dimension
exceeds 1600 while preserving aspect ratio, never upscaling.  (PIL's exact
rounding differs negligibly; no claim depends on the scaled values, only on
the resulting dimensions being the clamp bounds.) -/
def thumbnail1600 (w h : Nat) : Nat × Nat :=
  if w ≤ 1600 ∧ h ≤ 1600 then (w, h)
  else if h ≤ w then (1600, max 1 (h * 1600 / w)) else (max 1 (w * 1600 / h), 1600)

/-- Dimensions of a decoded `w × h` image after `exif_transpose` and
`thumbnail((1600, 1600))` — the dimensions the crop clamp works against. -/
def downscaledDims (w h : Nat) (swap : Bool) : Nat × Nat :=
  thumbnail1600 (exifDims swap w h).1 (exifDims swap w h).2

/-- The main-image crop clamp from `recipe_create` lines 323–325 (and the
identical code in `recipe_update` lines 488–490):
`x = max(0, int(cx)); y = max(0, int(cy)); w = max(1, int(cw));
h = max(1, int(ch)); w = min(w, im.width - x); h = min(h, im.height - y)`. -/
def clampMainRect (width height : Nat) (cx cy cw ch : Int) : Int × Int × Int × Int :=
  let x : Int := max 0 cx
  let y : Int := max 0 cy
  let w0 : Int := max 1 cw
  let h0 : Int := max 1 ch
  (x, y, min w0 ((width : Int) - x), min h0 ((height : Int) - y))

/-- The rectangle `(x, y, w, h)` lies entirely within a `width × height`
image and is non-degenerate. -/
def rectWithin (width height : Nat) (r : Int × Int × Int × Int) : Prop :=
  0 ≤ r.1 ∧ 0 ≤ r.2.1 ∧ 1 ≤ r.2.2.1 ∧ 1 ≤ r.2.2.2 ∧
    r.1 + r.2.2.1 ≤ (width : Int) ∧ r.2.1 + r.2.2.2 ≤ (height : Int)

instance (width height : Nat) (r : Int × Int × Int × Int) :
    Decidable (rectWithin width height r) := by
  unfold rectWithin; infer_instance

/-- The main-image processing block of `recipe_create` lines 317–330 (and
verbatim in `recipe_update` lines 483–494): open the written bytes, EXIF
transpose, thumbnail to 1600, optionally clamp-and-crop then resize to
1200×675, save as WEBP.  The whole block is inside `try/except: pass`, so a
decode failure or a crop failure (PIL raises when the clamped width or
height is negative, i.e. `right < left` or `lower < upper`) leaves the raw
uploaded bytes in place. -/
def processMainImage (img : ImageData) (cx cy cw ch : Option Int) : FileState :=
  match img with
  | .invalid => .raw .invalid
  | .valid w h swap =>
    let d1 := downscaledDims w h swap
    match cx, cy, cw, ch with
    | some icx, some icy, some icw, some ich =>
      let r := clampMainRect d1.1 d1.2 icx icy icw ich
      if r.2.2.1 < 0 ∨ r.2.2.2 < 0 then .raw img
      else .processed ⟨1200, 675, some r⟩
    | _, _, _, _ => .processed ⟨d1.1, d1.2, none⟩

/-- `save_step_image` from `main.py` lines 130–153.  Returns the value the
Python function returns (`None` when there is no upload or no filename,
otherwise always `/media/<fname>` — even when decoding failed) together
with the media-directory entries written.  Note: unlike the main-image
block, the crop branch here applies no `max(0, ·)`/`max(1, ·)` clamps
before the `min`s. -/
def save_step_image (upload : Option Upload) (fname : String)
    (crop_x crop_y crop_w crop_h : Option Int) : Option String × Media :=
  match upload with
  | none => (none, [])
  | some up =>
    if up.filename = "" then (none, [])
    else
      let fs : FileState :=
        match up.content with
        | .invalid => .raw .invalid
        | .valid w h swap =>
          let d1 := downscaledDims w h swap
          match crop_x, crop_y, crop_w, crop_h with
          | some cx, some cy, some cw, some ch =>
            let w2 : Int := min cw ((d1.1 : Int) - cx)
            let h2 : Int := min ch ((d1.2 : Int) - cy)
            if w2 < 0 ∨ h2 < 0 then .raw up.content
            else .processed ⟨1200, 675, some (cx, cy, w2, h2)⟩
          | _, _, _, _ => .processed ⟨d1.1, d1.2, none⟩
      (some ("/media/" ++ fname), [(fname, fs)])

/-- `_crop_tuple_at` from `main.py` lines 161–173: pulls index `idx` out of
the four form arrays, converts with `_to_int_or_none`, and if all four are
present returns `(max(0,x), max(0,y), max(1,w), max(1,h))`. -/
def _crop_tuple_at (idx : Nat) (xs ys ws hs : Option (List String)) :
    Option (Int × Int × Int × Int) :=
  let at_ : Option (List String) → Option String := fun arr =>
    match arr with
    | none => none
    | some l => l.get? idx
  match _to_int_or_none (at_ xs), _to_int_or_none (at_ ys),
        _to_int_or_none (at_ ws), _to_int_or_none (at_ hs) with
  | some x, some y, some w, some h => some (max 0 x, max 0 y, max 1 w, max 1 h)
  | _, _, _, _ => none

/-! ## Data model (SQLModel tables) -/

structure UserRow where
  id : Nat
  email : String
  password_hash : String
deriving DecidableEq

structure RecipeRow where
  id : Nat
  title : String
  description : String
  main_image : Option String
  author_id : Option Nat
  view_count : Nat
deriving DecidableEq

structure IngredientRow where
  recipe_id : Nat
  name : String
  amount : Option String
  unit : Option String
  order_no : Nat
deriving DecidableEq

structure StepRow where
  recipe_id : Nat
  body : String
  order_no : Nat
  image_path : Option String
deriving DecidableEq

structure TagRow where
  id : Nat
  name : String
deriving DecidableEq

structure RecipeTagRow where
  recipe_id : Nat
  tag_id : Nat
deriving DecidableEq

structure FavoriteRow where
  user_id : Nat
  recipe_id : Nat
deriving DecidableEq

/-- The SQLite database as one record of row lists. -/
structure DB where
  users : List UserRow
  recipes : List RecipeRow
  ingredients : List IngredientRow
  steps : List StepRow
  tags : List TagRow
  recipeTags : List RecipeTagRow
  favorites : List FavoriteRow
deriving DecidableEq

def emptyDB : DB := ⟨[], [], [], [], [], [], []⟩

/-- The browser session: optional logged-in user id and CSRF token. -/
structure SessionData where
  user_id : Option Nat
  csrf_token : Option String
deriving DecidableEq

/-- An HTTP response, at the granularity the claims talk about. -/
inductive Resp where
  | page (template : String)
  | redirect (url : String) (status : Nat)
  | httpError (status : Nat) (detail : String)
deriving DecidableEq

/-! ## Auth helpers -/

/-- `get_current_user` from `main.py` lines 94–99: a falsy session value
(absent, or the integer 0) yields no user; otherwise look the id up. -/
def get_current_user (db : DB) (sess : SessionData) : Option UserRow :=
  match sess.user_id with
  | none => none
  | some uid => if uid = 0 then none else db.users.find? (fun u => u.id == uid)

/-- `verify_csrf` from `main.py` lines 105–108 as a boolean: the check
passes iff the session token is present and truthy, the supplied token is
truthy, and the two are equal (`secrets.compare_digest`). -/
def verify_csrf (sess : SessionData) (token : String) : Bool :=
  match sess.csrf_token with
  | none => false
  | some st => st != "" && token != "" && st == token

/-- Fresh autoincrement id for the `user` table. -/
def nextUserId (db : DB) : Nat := db.users.foldl (fun a u => max a u.id) 0 + 1

/-- Fresh autoincrement id for the `recipe` table. -/
def nextRecipeId (db : DB) : Nat := db.recipes.foldl (fun a r => max a r.id) 0 + 1

/-- Fresh autoincrement id for the `tag` table. -/
def nextTagId (db : DB) : Nat := db.tags.foldl (fun a t => max a t.id) 0 + 1

/-- Abstraction of `passlib`'s bcrypt hashing (external library). -/
def pwdHashFn (p : String) : String := "bcrypt$" ++ p

/-! ## Auth routes -/

/-- `POST /signup` (`main.py` lines 220–236).  `verify_csrf` runs before the
database session opens; on duplicate email the form is re-rendered; else a
`User` row is inserted and the browser redirected to `/`. -/
def signup (db : DB) (sess : SessionData) (email password csrf_token : String) :
    Resp × DB :=
  if verify_csrf sess csrf_token = false then (.httpError 400 "Invalid CSRF token", db)
  else if (db.users.find? (fun u => u.email == email)).isSome then
    (.page "signup.html", db)
  else
    let u : UserRow := ⟨nextUserId db, email, pwdHashFn password⟩
    (.redirect "/" 303, { db with users := db.users ++ [u] })

/-- `POST /login` (`main.py` lines 244–258).  Never writes a row: it either
re-renders the form or sets the session and redirects. -/
def login (db : DB) (sess : SessionData) (email password csrf_token : String) :
    Resp × DB :=
  if verify_csrf sess csrf_token = false then (.httpError 400 "Invalid CSRF token", db)
  else
    match db.users.find? (fun u => u.email == email) with
    | none => (.page "login.html", db)
    | some u =>
      if pwdHashFn password == u.password_hash then (.redirect "/" 303, db)
      else (.page "login.html", db)

/-- `POST /logout` (`main.py` lines 260–264): CSRF check, clear the session
(no database row is touched), redirect to `/`. -/
def logout (db : DB) (sess : SessionData) (csrf_token : String) : Resp × DB :=
  if verify_csrf sess csrf_token = false then (.httpError 400 "Invalid CSRF token", db)
  else (.redirect "/" 303, db)

/-! ## Recipe creation -/

/-- Form fields of `POST /recipes` (`recipe_create`, `main.py` lines
277–298).  Random filenames are passed separately. -/
structure CreateInput where
  title : String
  description : String
  image : Option Upload
  ingredients_name : List String
  ingredients_amount : List String
  ingredients_unit : List String
  steps_body : List String
  steps_image : List (Option Upload)
  steps_crop_x : Option (List String)
  steps_crop_y : Option (List String)
  steps_crop_w : Option (List String)
  steps_crop_h : Option (List String)
  tags_csv : String
  crop_x : Option String
  crop_y : Option String
  crop_w : Option String
  crop_h : Option String
  csrf_token : String

/-- The ingredient loop of `recipe_create` (`main.py` lines 339–350):
`for idx, name in enumerate(ingredients_name)`, skipping blank names,
storing stripped values with `order_no = idx`. -/
def createIngredientRowsAux (rid : Nat) (amounts units : List String) :
    Nat → List String → List IngredientRow
  | _, [] => []
  | idx, nm :: rest =>
    let tail := createIngredientRowsAux rid amounts units (idx + 1) rest
    let name := stripS nm
    if name = "" then tail
    else
      let amount := orNoneStr (amounts.get? idx)
      let unit := orNoneStr (units.get? idx)
      ⟨rid, name, amount.map stripS, unit.map stripS, idx⟩ :: tail

def createIngredientRows (rid : Nat) (names amounts units : List String) :
    List IngredientRow :=
  createIngredientRowsAux rid amounts units 0 names

/-- One iteration's image handling in the step loop of `recipe_create`
(`main.py` lines 359–364): the source computes
`crop = _crop_tuple_at(idx, ...)` and then calls `save_step_image(up)`
WITHOUT passing the crop — the binding is dead, exactly as in the code. -/
def createStepImageAt (imgs : List (Option Upload))
    (xs ys ws hs : Option (List String)) (stepFname : Nat → String) (idx : Nat) :
    Option String × Media :=
  match imgs.get? idx with
  | some (some up) =>
    if up.filename ≠ "" then
      let _crop := _crop_tuple_at idx xs ys ws hs
      save_step_image (some up) (stepFname idx) none none none none
    else (none, [])
  | _ => (none, [])

/-- The step loop of `recipe_create` (`main.py` lines 352–367):
`for idx in range(max(len(steps_body), len(steps_image)))`, skipping
iterations with neither body nor image, `order_no = idx`. -/
def createStepRowsAux (rid : Nat) (bodies : List String)
    (imgs : List (Option Upload)) (xs ys ws hs : Option (List String))
    (stepFname : Nat → String) : Nat → Nat → List StepRow × Media
  | _, 0 => ([], [])
  | idx, fuel + 1 =>
    let body := stripS ((bodies.get? idx).getD "")
    let upres := createStepImageAt imgs xs ys ws hs stepFname idx
    let rest := createStepRowsAux rid bodies imgs xs ys ws hs stepFname (idx + 1) fuel
    if body = "" ∧ upres.1 = none then (rest.1, upres.2 ++ rest.2)
    else (⟨rid, body, idx, upres.1⟩ :: rest.1, upres.2 ++ rest.2)

def createStepRows (rid : Nat) (bodies : List String) (imgs : List (Option Upload))
    (xs ys ws hs : Option (List String)) (stepFname : Nat → String) :
    List StepRow × Media :=
  createStepRowsAux rid bodies imgs xs ys ws hs stepFname 0 (max bodies.length imgs.length)

/-- Tag lookup-or-insert of `main.py` lines 374–376: find by exact name,
else insert with a fresh id; returns the tag id and the updated DB. -/
def upsertTag (db : DB) (tname : String) : Nat × DB :=
  match db.tags.find? (fun t => t.name == tname) with
  | some t => (t.id, db)
  | none => (nextTagId db, { db with tags := db.tags ++ [⟨nextTagId db, tname⟩] })

/-- RecipeTag insert-if-absent of `main.py` lines 377–381. -/
def linkTag (db : DB) (rid tid : Nat) : DB :=
  if (db.recipeTags.find? (fun rt => rt.recipe_id == rid && rt.tag_id == tid)).isSome
  then db
  else { db with recipeTags := db.recipeTags ++ [⟨rid, tid⟩] }

/-- The tag loop shared by `recipe_create` (lines 369–381) and
`recipe_update` (lines 538–549): for each non-blank trimmed name from the
comma-separated field, upsert the tag and link it to the recipe. -/
def addTagsAux (rid : Nat) : List String → DB → DB
  | [], db => db
  | raw :: rest, db =>
    let tname := stripS raw
    if tname = "" then addTagsAux rid rest db
    else addTagsAux rid rest (linkTag (upsertTag db tname).2 rid (upsertTag db tname).1)

/-- Python `str.split(",")`, structurally (so it reduces in the kernel);
note `"".split(",") == [""]`. -/
def splitCommaAux : List Char → List Char → List String
  | [], acc => [⟨acc.reverse⟩]
  | c :: rest, acc =>
    if c = ',' then ⟨acc.reverse⟩ :: splitCommaAux rest []
    else splitCommaAux rest (c :: acc)

def splitComma (s : String) : List String := splitCommaAux s.data []

def addTags (db : DB) (rid : Nat) (csv : String) : DB :=
  addTagsAux rid (splitComma csv) db

/-- `POST /recipes` (`recipe_create`, `main.py` lines 276–393): login check
(redirect to `/login` when absent), then `verify_csrf`, then the main-image
pipeline — whose stored path is `f"/media/{fname}+"`, with the stray
trailing `+` exactly as on line 331 — then recipe/ingredient/step/tag
insertion in one session, then the detail page is rendered. -/
def recipe_create (db : DB) (media : Media) (sess : SessionData)
    (inp : CreateInput) (mainFname : String) (stepFname : Nat → String) :
    Resp × DB × Media :=
  match get_current_user db sess with
  | none => (.redirect "/login" 303, db, media)
  | some user =>
    if verify_csrf sess inp.csrf_token = false then
      (.httpError 400 "Invalid CSRF token", db, media)
    else
      let cx := _to_float_or_none inp.crop_x
      let cy := _to_float_or_none inp.crop_y
      let cw := _to_float_or_none inp.crop_w
      let ch := _to_float_or_none inp.crop_h
      let mainRes : Option String × Media :=
        match inp.image with
        | none => (none, [])
        | some up =>
          if up.filename = "" then (none, [])
          else (some ("/media/" ++ mainFname ++ "+"),
                [(mainFname, processMainImage up.content cx cy cw ch)])
      let rid := nextRecipeId db
      let r : RecipeRow := ⟨rid, inp.title, inp.description, mainRes.1, some user.id, 0⟩
      let ings := createIngredientRows rid inp.ingredients_name
        inp.ingredients_amount inp.ingredients_unit
      let stepsRes := createStepRows rid inp.steps_body inp.steps_image
        inp.steps_crop_x inp.steps_crop_y inp.steps_crop_w inp.steps_crop_h stepFname
      let db1 : DB := { db with
        recipes := db.recipes ++ [r],
        ingredients := db.ingredients ++ ings,
        steps := db.steps ++ stepsRes.1 }
      let db2 := addTags db1 rid inp.tags_csv
      (.page "recipe_detail.html", db2, media ++ mainRes.2 ++ stepsRes.2)

/-! ## Recipe edit -/

/-- Form fields of `POST /recipes/{rid}/edit` (`recipe_update`, `main.py`
lines 436–460).  Note: there is no `ingredients_unit` field. -/
structure UpdateInput where
  title : String
  csrf_token : String
  description : String
  image : Option Upload
  ingredients_name : Option (List String)
  ingredients_amount : Option (List String)
  steps_body : Option (List String)
  steps_existing_image : Option (List String)
  steps_image : Option (List (Option Upload))
  tags_csv : String
  crop_x : Option String
  crop_y : Option String
  crop_w : Option String
  crop_h : Option String

/-- The ingredient re-creation loop of `recipe_update` (`main.py` lines
502–514): blank names skipped, `unit=None` always, `order_no = idx`. -/
def updateIngredientRowsAux (rid : Nat) (amounts : List String) :
    Nat → List String → List IngredientRow
  | _, [] => []
  | idx, nm :: rest =>
    let tail := updateIngredientRowsAux rid amounts (idx + 1) rest
    let name := stripS nm
    if name = "" then tail
    else
      let amount := orNoneStr (amounts.get? idx)
      ⟨rid, name, amount.map stripS, none, idx⟩ :: tail

def updateIngredientRows (rid : Nat) (names amounts : List String) :
    List IngredientRow :=
  updateIngredientRowsAux rid amounts 0 names

/-- The step re-creation loop of `recipe_update` (`main.py` lines 516–536):
a freshly uploaded image wins, otherwise the `steps_existing_image` value
is kept; iterations with neither body nor image are skipped. -/
def updateStepRowsAux (rid : Nat) (bodies olds : List String)
    (imgs : List (Option Upload)) (stepFname : Nat → String) :
    Nat → Nat → List StepRow × Media
  | _, 0 => ([], [])
  | idx, fuel + 1 =>
    let body := stripS ((bodies.get? idx).getD "")
    let keep := orNoneStr (olds.get? idx)
    let upres : Option String × Media :=
      match imgs.get? idx with
      | some (some up) =>
        if up.filename ≠ "" then
          save_step_image (some up) (stepFname idx) none none none none
        else (none, [])
      | _ => (none, [])
    let img_path := match upres.1 with | none => keep | some p => some p
    let rest := updateStepRowsAux rid bodies olds imgs stepFname (idx + 1) fuel
    if body = "" ∧ img_path = none then (rest.1, upres.2 ++ rest.2)
    else (⟨rid, body, idx, img_path⟩ :: rest.1, upres.2 ++ rest.2)

def updateStepRows (rid : Nat) (bodies olds : List String)
    (imgs : List (Option Upload)) (stepFname : Nat → String) :
    List StepRow × Media :=
  updateStepRowsAux rid bodies olds imgs stepFname 0
    (max bodies.length (max olds.length imgs.length))

/-- `POST /recipes/{rid}/edit` (`recipe_update`, `main.py` lines 435–553):
login check (redirect), CSRF check, 404/403 checks, optional main-image
replacement (again stored as `f"/media/{fname}+"`, line 495), then
delete-and-recreate of ingredients (with `unit=None`) and steps, additive
tags, and a 303 redirect to the detail page. -/
def recipe_update (db : DB) (media : Media) (sess : SessionData) (rid : Nat)
    (inp : UpdateInput) (mainFname : String) (stepFname : Nat → String) :
    Resp × DB × Media :=
  match get_current_user db sess with
  | none => (.redirect "/login" 303, db, media)
  | some user =>
    if verify_csrf sess inp.csrf_token = false then
      (.httpError 400 "Invalid CSRF token", db, media)
    else
      let cx := _to_float_or_none inp.crop_x
      let cy := _to_float_or_none inp.crop_y
      let cw := _to_float_or_none inp.crop_w
      let ch := _to_float_or_none inp.crop_h
      match db.recipes.find? (fun r => r.id == rid) with
      | none => (.httpError 404 "Not found", db, media)
      | some r =>
        if (r.author_id == some user.id) = false then
          (.httpError 403 "Forbidden", db, media)
        else
          let mainRes : Option String × Media :=
            match inp.image with
            | none => (none, [])
            | some up =>
              if up.filename = "" then (none, [])
              else (some ("/media/" ++ mainFname ++ "+"),
                    [(mainFname, processMainImage up.content cx cy cw ch)])
          let r1 : RecipeRow := { r with
            title := inp.title,
            description := inp.description,
            main_image := match mainRes.1 with | none => r.main_image | some p => some p }
          let ings := updateIngredientRows rid (inp.ingredients_name.getD [])
            (inp.ingredients_amount.getD [])
          let stepsRes := updateStepRows rid (inp.steps_body.getD [])
            (inp.steps_existing_image.getD []) (inp.steps_image.getD []) stepFname
          let db1 : DB := { db with
            recipes := db.recipes.map (fun x => if x.id == rid then r1 else x),
            ingredients :=
              db.ingredients.filter (fun i => i.recipe_id != rid) ++ ings,
            steps := db.steps.filter (fun st => st.recipe_id != rid) ++ stepsRes.1 }
          let db2 := addTags db1 rid inp.tags_csv
          (.redirect ("/recipes/" ++ toString rid) 303, db2, media ++ mainRes.2 ++ stepsRes.2)

/-! ## Recipe delete, favorites, favorites page -/

/-- `POST /recipes/{rid}/delete` (`main.py` lines 555–567): CSRF first, then
`_require_owner` (which raises 401 via `_require_login` when no user is in
the session, 404 when the recipe is absent, 403 when not the owner), then
deletion of all child rows and the recipe in one session. -/
def recipe_delete (db : DB) (sess : SessionData) (rid : Nat) (csrf_token : String) :
    Resp × DB :=
  if verify_csrf sess csrf_token = false then (.httpError 400 "Invalid CSRF token", db)
  else
    match get_current_user db sess with
    | none => (.httpError 401 "Login required", db)
    | some user =>
      match db.recipes.find? (fun r => r.id == rid) with
      | none => (.httpError 404 "Not found", db)
      | some r =>
        if (r.author_id == some user.id) = false then (.httpError 403 "Forbidden", db)
        else
          (.redirect "/" 303,
            { db with
              recipes := db.recipes.filter (fun x => x.id != rid),
              ingredients := db.ingredients.filter (fun i => i.recipe_id != rid),
              steps := db.steps.filter (fun st => st.recipe_id != rid),
              recipeTags := db.recipeTags.filter (fun rt => rt.recipe_id != rid),
              favorites := db.favorites.filter (fun f => f.recipe_id != rid) })

/-- `POST /recipes/{rid}/favorite` (`main.py` lines 630–643): login check
(redirect), CSRF check, then insert the `Favorite` row if absent — with no
check that the recipe exists — and a 303 redirect to the detail URL. -/
def favorite_recipe (db : DB) (sess : SessionData) (rid : Nat) (csrf_token : String) :
    Resp × DB :=
  match get_current_user db sess with
  | none => (.redirect "/login" 303, db)
  | some user =>
    if verify_csrf sess csrf_token = false then (.httpError 400 "Invalid CSRF token", db)
    else
      let db1 :=
        if (db.favorites.find? (fun f => f.user_id == user.id && f.recipe_id == rid)).isSome
        then db
        else { db with favorites := db.favorites ++ [⟨user.id, rid⟩] }
      (.redirect ("/recipes/" ++ toString rid) 303, db1)

/-- `POST /recipes/{rid}/unfavorite` (`main.py` lines 647–656). -/
def unfavorite_recipe (db : DB) (sess : SessionData) (rid : Nat) (csrf_token : String) :
    Resp × DB :=
  match get_current_user db sess with
  | none => (.redirect "/login" 303, db)
  | some user =>
    if verify_csrf sess csrf_token = false then (.httpError 400 "Invalid CSRF token", db)
    else
      (.redirect ("/recipes/" ++ toString rid) 303,
        { db with favorites :=
            db.favorites.filter (fun f => !(f.user_id == user.id && f.recipe_id == rid)) })

/-- `GET /favorites` (`favorites_page`, `main.py` lines 659–683): calls
`_require_login`, which — despite its comment announcing a 303 redirect —
raises `HTTPException(status_code=401, detail="Login required")` when the
session has no user. -/
def favorites_page (db : DB) (sess : SessionData) (order : String) : Resp :=
  match get_current_user db sess with
  | none => .httpError 401 "Login required"
  | some _ => .page "favorites.html"

/-! ## Fetching (the ordered queries used by `recipe_create`/`recipe_detail`) -/

/-- Insertion into a list sorted by `key`. -/
def insertKey {α : Type} (key : α → Nat) (x : α) : List α → List α
  | [] => [x]
  | y :: ys => if key x ≤ key y then x :: y :: ys else y :: insertKey key x ys

/-- Insertion sort by `key`, modelling SQL `ORDER BY`. -/
def sortKey {α : Type} (key : α → Nat) : List α → List α
  | [] => []
  | x :: xs => insertKey key x (sortKey key xs)

/-- `select(Ingredient).where(recipe_id == rid).order_by(order_no)`. -/
def fetchIngredients (db : DB) (rid : Nat) : List IngredientRow :=
  sortKey (fun i => i.order_no) (db.ingredients.filter (fun i => i.recipe_id == rid))

/-- `select(Step).where(recipe_id == rid).order_by(order_no)`. -/
def fetchSteps (db : DB) (rid : Nat) : List StepRow :=
  sortKey (fun st => st.order_no) (db.steps.filter (fun st => st.recipe_id == rid))

/-! ## Maintenance script -/

/-- `src/app/tools/fix_plus_in_paths.py`: strips one trailing `+` from
every non-null `main_image`. -/
def fix_plus_in_paths (db : DB) : DB :=
  { db with recipes := db.recipes.map (fun r =>
      match r.main_image with
      | none => r
      | some p =>
        if p.data.getLast? = some '+' then { r with main_image := some ⟨p.data.dropLast⟩ }
        else r) }

/-! ## Concrete fixtures used by witnesses and counterexamples -/

/-- A registered user. -/
def user1 : UserRow := ⟨1, "a@example.com", pwdHashFn "pw"⟩

/-- A database holding just `user1`. -/
def db1 : DB := { emptyDB with users := [user1] }

/-- A session logged in as `user1` with CSRF token `"tok"`. -/
def sess1 : SessionData := ⟨some 1, some "tok"⟩

/-- A minimal valid `POST /recipes` form submission. -/
def baseCreate : CreateInput :=
  { title := "Omelette", description := "", image := none,
    ingredients_name := [], ingredients_amount := [], ingredients_unit := [],
    steps_body := [], steps_image := [],
    steps_crop_x := none, steps_crop_y := none, steps_crop_w := none,
    steps_crop_h := none,
    tags_csv := "", crop_x := none, crop_y := none, crop_w := none, crop_h := none,
    csrf_token := "tok" }

/-- A minimal `POST /recipes/{rid}/edit` form submission. -/
def baseUpdate : UpdateInput :=
  { title := "Omelette v2", csrf_token := "tok", description := "", image := none,
    ingredients_name := none, ingredients_amount := none,
    steps_body := none, steps_existing_image := none, steps_image := none,
    tags_csv := "", crop_x := none, crop_y := none, crop_w := none, crop_h := none }

/-- A create submission with two ingredients and two steps, all non-blank. -/
def omeletteInput : CreateInput :=
  { baseCreate with
    ingredients_name := ["egg", "milk"],
    ingredients_amount := ["2", "100"],
    ingredients_unit := ["pcs", "ml"],
    steps_body := ["beat eggs", "cook"] }

/-- A recipe owned by `user1`, with an ingredient that has a non-null unit. -/
def recipeA : RecipeRow := ⟨1, "Omelette", "", none, some 1, 0⟩

/-- A database with `user1` owning `recipeA`, whose single ingredient has
`unit = some "pcs"`. -/
def db2 : DB :=
  { emptyDB with
    users := [user1],
    recipes := [recipeA],
    ingredients := [⟨1, "egg", some "2", some "pcs", 0⟩] }

/-! ## Helper lemmas -/

theorem upsertTag_fields (db : DB) (t : String) :
    (upsertTag db t).2.users = db.users ∧ (upsertTag db t).2.recipes = db.recipes ∧
    (upsertTag db t).2.ingredients = db.ingredients ∧
    (upsertTag db t).2.steps = db.steps ∧
    (upsertTag db t).2.favorites = db.favorites := by
  unfold upsertTag
  cases db.tags.find? (fun x => x.name == t) <;> exact ⟨rfl, rfl, rfl, rfl, rfl⟩

theorem linkTag_fields (db : DB) (rid tid : Nat) :
    (linkTag db rid tid).users = db.users ∧ (linkTag db rid tid).recipes = db.recipes ∧
    (linkTag db rid tid).ingredients = db.ingredients ∧
    (linkTag db rid tid).steps = db.steps ∧
    (linkTag db rid tid).favorites = db.favorites := by
  unfold linkTag
  split <;> exact ⟨rfl, rfl, rfl, rfl, rfl⟩

/-- The tag loop touches only the `tag` and `recipetag` tables. -/
theorem addTagsAux_fields (rid : Nat) (l : List String) (db : DB) :
    (addTagsAux rid l db).users = db.users ∧ (addTagsAux rid l db).recipes = db.recipes ∧
    (addTagsAux rid l db).ingredients = db.ingredients ∧
    (addTagsAux rid l db).steps = db.steps ∧
    (addTagsAux rid l db).favorites = db.favorites := by
  induction l generalizing db with
  | nil => exact ⟨rfl, rfl, rfl, rfl, rfl⟩
  | cons raw rest ih =>
    unfold addTagsAux
    dsimp only
    split
    · exact ih db
    · have h1 := upsertTag_fields db (stripS raw)
      have h2 := linkTag_fields (upsertTag db (stripS raw)).2 rid (upsertTag db (stripS raw)).1
      have h3 := ih (linkTag (upsertTag db (stripS raw)).2 rid (upsertTag db (stripS raw)).1)
      exact ⟨h3.1.trans (h2.1.trans h1.1),
             h3.2.1.trans (h2.2.1.trans h1.2.1),
             h3.2.2.1.trans (h2.2.2.1.trans h1.2.2.1),
             h3.2.2.2.1.trans (h2.2.2.2.1.trans h1.2.2.2.1),
             h3.2.2.2.2.trans (h2.2.2.2.2.trans h1.2.2.2.2)⟩

theorem addTags_fields (db : DB) (rid : Nat) (csv : String) :
    (addTags db rid csv).users = db.users ∧ (addTags db rid csv).recipes = db.recipes ∧
    (addTags db rid csv).ingredients = db.ingredients ∧
    (addTags db rid csv).steps = db.steps ∧
    (addTags db rid csv).favorites = db.favorites :=
  addTagsAux_fields rid (splitComma csv) db

theorem insertKey_eq_cons {α : Type} (key : α → Nat) (x : α) (l : List α)
    (h : ∀ y ∈ l, key x ≤ key y) : insertKey key x l = x :: l := by
  cases l with
  | nil => rfl
  | cons y ys =>
    unfold insertKey
    rw [if_pos (h y (List.mem_cons_self y ys))]

/-- Sorting a list whose keys are already non-decreasing returns it
unchanged: `ORDER BY order_no` on rows inserted with increasing `order_no`
reproduces the insertion order. -/
theorem sortKey_eq_self {α : Type} (key : α → Nat) (l : List α)
    (h : l.Pairwise (fun a b => key a ≤ key b)) : sortKey key l = l := by
  induction l with
  | nil => rfl
  | cons x xs ih =>
    have hc := List.pairwise_cons.mp h
    unfold sortKey
    rw [ih hc.2]
    exact insertKey_eq_cons key x xs hc.1

theorem pairwise_le_of_map_range' {α : Type} (key : α → Nat) (l : List α) (s n : Nat)
    (h : l.map key = List.range' s n) : l.Pairwise (fun a b => key a ≤ key b) := by
  have h1 : (l.map key).Pairwise (fun a b => a < b) := by
    rw [h]; exact List.pairwise_lt_range' s n
  exact (List.pairwise_map.mp h1).imp (fun hab => Nat.le_of_lt hab)

/-- Shape of the rows produced by the `recipe_create` ingredient loop when
no (stripped) name is blank: names are the stripped inputs in order, the
`order_no` values count up from the starting index, and every row carries
the new recipe id. -/
theorem createIngredientRowsAux_spec (rid : Nat) (amounts units : List String)
    (names : List String) :
    ∀ idx : Nat, (∀ s ∈ names, stripS s ≠ "") →
    (createIngredientRowsAux rid amounts units idx names).map (fun i => i.name)
        = names.map stripS ∧
    (createIngredientRowsAux rid amounts units idx names).map (fun i => i.order_no)
        = List.range' idx names.length ∧
    ∀ i ∈ createIngredientRowsAux rid amounts units idx names, i.recipe_id = rid := by
  induction names with
  | nil =>
    intro idx h
    exact ⟨rfl, rfl, by intro i hi; cases hi⟩
  | cons nm rest ih =>
    intro idx h
    have hnm : stripS nm ≠ "" := h nm (List.mem_cons_self nm rest)
    have hrest := ih (idx + 1) (fun s hs => h s (List.mem_cons_of_mem nm hs))
    unfold createIngredientRowsAux
    dsimp only
    rw [if_neg hnm]
    refine ⟨?_, ?_, ?_⟩
    · simpa using hrest.1
    · rw [List.length_cons, List.range'_succ]
      simpa using hrest.2.1
    · intro i hi
      rcases List.mem_cons.mp hi with h1 | h1
      · rw [h1]
      · exact hrest.2.2 i h1

/-- Shape of the rows produced by the `recipe_create` step loop when every
(stripped) body is non-blank and there are no more image slots than bodies:
bodies are the stripped inputs in order and `order_no` counts up. -/
theorem createStepRowsAux_spec (rid : Nat) (bodies : List String)
    (imgs : List (Option Upload)) (xs ys ws hs : Option (List String))
    (stepFname : Nat → String) (hb : ∀ s ∈ bodies, stripS s ≠ "") :
    ∀ (fuel idx : Nat), idx + fuel = bodies.length →
    (createStepRowsAux rid bodies imgs xs ys ws hs stepFname idx fuel).1.map
        (fun st => st.body) = (bodies.drop idx).map stripS ∧
    (createStepRowsAux rid bodies imgs xs ys ws hs stepFname idx fuel).1.map
        (fun st => st.order_no) = List.range' idx fuel ∧
    ∀ st ∈ (createStepRowsAux rid bodies imgs xs ys ws hs stepFname idx fuel).1,
      st.recipe_id = rid := by
  intro fuel
  induction fuel with
  | zero =>
    intro idx hlen
    have hdrop : bodies.drop idx = [] := by
      apply List.drop_eq_nil_of_le; omega
    rw [hdrop]
    exact ⟨rfl, rfl, by intro st hst; cases hst⟩
  | succ fuel ih =>
    intro idx hlen
    have hidx : idx < bodies.length := by omega
    have hget : bodies.get? idx = some (bodies.get ⟨idx, hidx⟩) := List.get?_eq_get hidx
    have hbody : stripS (bodies.get ⟨idx, hidx⟩) ≠ "" :=
      hb _ (List.get_mem bodies idx hidx)
    have hrest := ih (idx + 1) (by omega)
    unfold createStepRowsAux
    dsimp only
    rw [hget]
    simp only [Option.getD_some]
    rw [if_neg (by intro hcon; exact hbody hcon.1)]
    have hdrop : bodies.drop idx = bodies.get ⟨idx, hidx⟩ :: bodies.drop (idx + 1) := by
      rw [List.drop_eq_getElem_cons hidx]; rfl
    refine ⟨?_, ?_, ?_⟩
    · rw [hdrop, List.map_cons, List.map_cons, hrest.1]
    · rw [List.range'_succ, List.map_cons, hrest.2.1]
    · intro st hst
      rcases List.mem_cons.mp hst with h1 | h1
      · rw [h1]
      · exact hrest.2.2 st h1

theorem addTags_ingredients (db : DB) (rid : Nat) (csv : String) :
    (addTags db rid csv).ingredients = db.ingredients :=
  (addTags_fields db rid csv).2.2.1

theorem addTags_steps (db : DB) (rid : Nat) (csv : String) :
    (addTags db rid csv).steps = db.steps :=
  (addTags_fields db rid csv).2.2.2.1

theorem addTags_recipes (db : DB) (rid : Nat) (csv : String) :
    (addTags db rid csv).recipes = db.recipes :=
  (addTags_fields db rid csv).2.1

/-- Every row produced by the `recipe_update` ingredient loop has
`unit = none` and the edited recipe's id. -/
theorem updateIngredientRowsAux_unit (rid : Nat) (amounts : List String)
    (names : List String) :
    ∀ idx : Nat, ∀ i ∈ updateIngredientRowsAux rid amounts idx names,
      i.recipe_id = rid ∧ i.unit = none := by
  induction names with
  | nil => intro idx i hi; cases hi
  | cons nm rest ih =>
    intro idx i hi
    unfold updateIngredientRowsAux at hi
    dsimp only at hi
    by_cases hnm : stripS nm = ""
    · rw [if_pos hnm] at hi
      exact ih (idx + 1) i hi
    · rw [if_neg hnm] at hi
      rcases List.mem_cons.mp hi with h1 | h1
      · rw [h1]; exact ⟨rfl, rfl⟩
      · exact ih (idx + 1) i h1

/-- On a logged-in, CSRF-valid request, `recipe_create` commits exactly the
loop-produced ingredient and step rows appended to the existing tables. -/
theorem recipe_create_success_tables (db : DB) (media : Media) (sess : SessionData)
    (inp : CreateInput) (mainF : String) (stepF : Nat → String) (u : UserRow)
    (huser : get_current_user db sess = some u)
    (hcsrf : verify_csrf sess inp.csrf_token = true) :
    (recipe_create db media sess inp mainF stepF).2.1.ingredients
      = db.ingredients ++ createIngredientRows (nextRecipeId db) inp.ingredients_name
          inp.ingredients_amount inp.ingredients_unit ∧
    (recipe_create db media sess inp mainF stepF).2.1.steps
      = db.steps ++ (createStepRows (nextRecipeId db) inp.steps_body inp.steps_image
          inp.steps_crop_x inp.steps_crop_y inp.steps_crop_w inp.steps_crop_h stepF).1 := by
  unfold recipe_create
  rw [huser]
  dsimp only
  rw [hcsrf, if_neg (by decide : ¬ (true = false))]
  dsimp only
  rw [addTags_ingredients, addTags_steps]
  exact ⟨rfl, rfl⟩

/-! ## Claim theorems -/

/-- C1 (code bug): the spec requires that a stored main-image path is
exactly `/media/<random-hex>.<ext>` with no stray trailing character, but
`recipe_create` (line 331) and `recipe_update` (line 495) both store
`f"/media/{fname}+"`. Evaluating a successful create and a successful
edit shows the trailing `+`, which the maintenance script
`fix_plus_in_paths` exists to strip again. -/
theorem c1_stored_main_image_has_stray_plus :
    (recipe_create db1 [] sess1
        { baseCreate with image := some ⟨"photo.jpg", .valid 800 600 false⟩ }
        "aabb.webp" (fun _ => "s.webp")).2.1.recipes
      = [⟨1, "Omelette", "", some "/media/aabb.webp+", some 1, 0⟩] ∧
    (recipe_update db2 [] sess1 1
        { baseUpdate with image := some ⟨"new.jpg", .valid 800 600 false⟩ }
        "ccdd.webp" (fun _ => "s.webp")).2.1.recipes
      = [⟨1, "Omelette v2", "", some "/media/ccdd.webp+", some 1, 0⟩] ∧
    (fix_plus_in_paths (recipe_create db1 [] sess1
        { baseCreate with image := some ⟨"photo.jpg", .valid 800 600 false⟩ }
        "aabb.webp" (fun _ => "s.webp")).2.1).recipes
      = [⟨1, "Omelette", "", some "/media/aabb.webp", some 1, 0⟩] := by
  decide

/-- C2 (counterexample): the claim says a mutating request with a
mismatched CSRF token is rejected with a 400-equivalent error; but
`POST /recipes` with no logged-in session user and a mismatched token is
answered with a 303 redirect to the login page, not a 400 error. -/
theorem c2_counterexample_redirect_instead_of_400 :
    verify_csrf ⟨none, some "tok"⟩ "WRONG" = false ∧
    recipe_create emptyDB [] ⟨none, some "tok"⟩
        { baseCreate with csrf_token := "WRONG" } "m.webp" (fun _ => "s.webp")
      = (.redirect "/login" 303, emptyDB, []) := by
  decide

/-- C2 (amended): a missing or mismatched CSRF token never changes the
database (and never writes a media file); the routes that check the token
first (signup, login, logout, recipe delete) reject with a 400 error, while
the routes that resolve the user first (recipe create/edit,
favorite/unfavorite) reject with a 400 error when a user is logged in and
with a 303 redirect to the login page when not. -/
theorem c2_bad_csrf_leaves_db_unchanged (db : DB) (media : Media)
    (sess : SessionData) (email password tok : String) (rid : Nat)
    (cinp : CreateInput) (uinp : UpdateInput) (mainF : String)
    (stepF : Nat → String)
    (hbad : verify_csrf sess tok = false)
    (hbadc : verify_csrf sess cinp.csrf_token = false)
    (hbadu : verify_csrf sess uinp.csrf_token = false) :
    signup db sess email password tok = (.httpError 400 "Invalid CSRF token", db) ∧
    login db sess email password tok = (.httpError 400 "Invalid CSRF token", db) ∧
    logout db sess tok = (.httpError 400 "Invalid CSRF token", db) ∧
    recipe_delete db sess rid tok = (.httpError 400 "Invalid CSRF token", db) ∧
    (recipe_create db media sess cinp mainF stepF).2.1 = db ∧
    (recipe_create db media sess cinp mainF stepF).2.2 = media ∧
    ((get_current_user db sess).isSome = true →
      (recipe_create db media sess cinp mainF stepF).1
        = .httpError 400 "Invalid CSRF token") ∧
    (get_current_user db sess = none →
      (recipe_create db media sess cinp mainF stepF).1 = .redirect "/login" 303) ∧
    (recipe_update db media sess rid uinp mainF stepF).2.1 = db ∧
    (recipe_update db media sess rid uinp mainF stepF).2.2 = media ∧
    ((get_current_user db sess).isSome = true →
      (recipe_update db media sess rid uinp mainF stepF).1
        = .httpError 400 "Invalid CSRF token") ∧
    (get_current_user db sess = none →
      (recipe_update db media sess rid uinp mainF stepF).1 = .redirect "/login" 303) ∧
    (favorite_recipe db sess rid tok).2 = db ∧
    ((get_current_user db sess).isSome = true →
      (favorite_recipe db sess rid tok).1 = .httpError 400 "Invalid CSRF token") ∧
    (get_current_user db sess = none →
      (favorite_recipe db sess rid tok).1 = .redirect "/login" 303) ∧
    (unfavorite_recipe db sess rid tok).2 = db ∧
    ((get_current_user db sess).isSome = true →
      (unfavorite_recipe db sess rid tok).1 = .httpError 400 "Invalid CSRF token") ∧
    (get_current_user db sess = none →
      (unfavorite_recipe db sess rid tok).1 = .redirect "/login" 303) := by
  refine ⟨?_, ?_, ?_, ?_, ?_, ?_, ?_, ?_, ?_, ?_, ?_, ?_, ?_, ?_, ?_, ?_, ?_, ?_⟩
  · simp [signup, hbad]
  · simp [login, hbad]
  · simp [logout, hbad]
  · simp [recipe_delete, hbad]
  · cases hgu : get_current_user db sess <;> simp [recipe_create, hgu, hbadc]
  · cases hgu : get_current_user db sess <;> simp [recipe_create, hgu, hbadc]
  · intro hs
    cases hgu : get_current_user db sess with
    | none => rw [hgu] at hs; cases hs
    | some u => simp [recipe_create, hgu, hbadc]
  · intro hn; simp [recipe_create, hn]
  · cases hgu : get_current_user db sess <;> simp [recipe_update, hgu, hbadu]
  · cases hgu : get_current_user db sess <;> simp [recipe_update, hgu, hbadu]
  · intro hs
    cases hgu : get_current_user db sess with
    | none => rw [hgu] at hs; cases hs
    | some u => simp [recipe_update, hgu, hbadu]
  · intro hn; simp [recipe_update, hn]
  · cases hgu : get_current_user db sess <;> simp [favorite_recipe, hgu, hbad]
  · intro hs
    cases hgu : get_current_user db sess with
    | none => rw [hgu] at hs; cases hs
    | some u => simp [favorite_recipe, hgu, hbad]
  · intro hn; simp [favorite_recipe, hn]
  · cases hgu : get_current_user db sess <;> simp [unfavorite_recipe, hgu, hbad]
  · intro hs
    cases hgu : get_current_user db sess with
    | none => rw [hgu] at hs; cases hs
    | some u => simp [unfavorite_recipe, hgu, hbad]
  · intro hn; simp [unfavorite_recipe, hn]

/-- C2 witness: the amended theorem applied to a logged-in session whose
token is `"tok"` and a supplied token `"WRONG"` (and, for the redirect
case, to an anonymous session with the same mismatched token). -/
theorem c2_bad_csrf_witness :
    verify_csrf sess1 "WRONG" = false ∧
    signup db1 sess1 "x@example.com" "pw" "WRONG"
      = (.httpError 400 "Invalid CSRF token", db1) ∧
    (recipe_create db1 [] sess1 { baseCreate with csrf_token := "WRONG" }
        "m.webp" (fun _ => "s.webp")).2.1 = db1 ∧
    (recipe_create db1 [] sess1 { baseCreate with csrf_token := "WRONG" }
        "m.webp" (fun _ => "s.webp")).1 = .httpError 400 "Invalid CSRF token" ∧
    (favorite_recipe db1 sess1 3 "WRONG").2 = db1 ∧
    (favorite_recipe db1 sess1 3 "WRONG").1 = .httpError 400 "Invalid CSRF token" ∧
    (unfavorite_recipe db1 sess1 3 "WRONG").1 = .httpError 400 "Invalid CSRF token" ∧
    (recipe_update db1 [] ⟨none, some "tok"⟩ 1
        { baseUpdate with csrf_token := "WRONG" }
        "m.webp" (fun _ => "s.webp")).1 = .redirect "/login" 303 := by
  obtain ⟨h1, h2, h3, h4, h5, h6, h7, h8, h9, h10, h11, h12, h13, h14, h15, h16, h17,
      h18⟩ :=
    c2_bad_csrf_leaves_db_unchanged db1 [] sess1 "x@example.com" "pw" "WRONG" 3
      { baseCreate with csrf_token := "WRONG" } { baseUpdate with csrf_token := "WRONG" }
      "m.webp" (fun _ => "s.webp") (by decide) (by decide) (by decide)
  obtain ⟨g1, g2, g3, g4, g5, g6, g7, g8, g9, g10, g11, g12, g13, g14, g15, g16, g17,
      g18⟩ :=
    c2_bad_csrf_leaves_db_unchanged db1 [] ⟨none, some "tok"⟩ "x@example.com" "pw"
      "WRONG" 1
      { baseCreate with csrf_token := "WRONG" } { baseUpdate with csrf_token := "WRONG" }
      "m.webp" (fun _ => "s.webp") (by decide) (by decide) (by decide)
  exact ⟨by decide, h1, h5, h7 (by decide), h13, h14 (by decide), h17 (by decide),
    g12 rfl⟩

/-- C3 (counterexample): the claim says an upload whose bytes fail to
decode yields no stored path; but `save_step_image` writes the raw bytes
and still returns `/media/<fname>` after the decode error is swallowed. -/
theorem c3_counterexample_path_returned_on_decode_failure :
    save_step_image (some ⟨"broken.jpg", .invalid⟩) "dead.webp" none none none none
      = (some "/media/dead.webp", [("dead.webp", .raw .invalid)]) := by
  decide

/-- C3 (amended): when the uploaded bytes fail to decode, the error is
logged and swallowed, but the ingest still returns the stored path — the
raw undecoded bytes stay on disk under that path and the recipe (or step)
is persisted with that non-null path; the owning recipe mutation still
succeeds and renders the detail page. -/
theorem c3_decode_failure_swallowed_path_kept (up : Upload) (fname : String)
    (cx cy cw ch : Option Int) (db : DB) (media : Media) (sess : SessionData)
    (inp : CreateInput) (mainF : String) (stepF : Nat → String) (u : UserRow)
    (hf : ¬ up.filename = "") (hbad : up.content = ImageData.invalid)
    (huser : get_current_user db sess = some u)
    (hcsrf : verify_csrf sess inp.csrf_token = true)
    (himg : inp.image = some up) :
    save_step_image (some up) fname cx cy cw ch
      = (some ("/media/" ++ fname), [(fname, .raw .invalid)]) ∧
    (recipe_create db media sess inp mainF stepF).1 = .page "recipe_detail.html" ∧
    (recipe_create db media sess inp mainF stepF).2.1.recipes
      = db.recipes ++ [⟨nextRecipeId db, inp.title, inp.description,
          some ("/media/" ++ mainF ++ "+"), some u.id, 0⟩] := by
  refine ⟨?_, ?_, ?_⟩
  · unfold save_step_image
    dsimp only
    rw [hbad, if_neg hf]
  · unfold recipe_create
    rw [huser]
    dsimp only
    rw [hcsrf, if_neg (by decide : ¬ (true = false))]
  · unfold recipe_create
    rw [huser]
    dsimp only
    rw [hcsrf, if_neg (by decide : ¬ (true = false))]
    dsimp only
    rw [addTags_recipes, himg]
    dsimp only
    rw [if_neg hf]

/-- C3 witness: the amended theorem at an undecodable upload inside a
concrete logged-in create request. -/
theorem c3_decode_failure_witness :
    (Upload.mk "broken.jpg" .invalid).filename = "broken.jpg" ∧
    save_step_image (some ⟨"broken.jpg", .invalid⟩) "ee.webp" none none none none
      = (some "/media/ee.webp", [("ee.webp", .raw .invalid)]) ∧
    (recipe_create db1 [] sess1
        { baseCreate with image := some ⟨"broken.jpg", .invalid⟩ }
        "ff.webp" (fun _ => "s.webp")).1 = .page "recipe_detail.html" := by
  have h := c3_decode_failure_swallowed_path_kept ⟨"broken.jpg", .invalid⟩ "ee.webp"
    none none none none db1 [] sess1
    { baseCreate with image := some ⟨"broken.jpg", .invalid⟩ } "ff.webp"
    (fun _ => "s.webp") user1 (by decide) rfl (by decide) (by decide) rfl
  exact ⟨by decide, h.1, h.2.1⟩

/-- C4 (code bug): the spec's invariant says step images and the main image
run the identical pipeline and that a crop rectangle supplied for a step
image in the create flow is applied; but `recipe_create` line 363 computes
`crop = _crop_tuple_at(...)` and line 364 calls `save_step_image(up)`
without passing it, so the step file is stored as the full downscaled
image (here 1600×800) even though the fully-specified crop parsed
successfully; passing the crop would have produced the 1200×675 crop. -/
theorem c4_step_crop_computed_but_never_applied :
    _crop_tuple_at 0 (some ["10"]) (some ["20"]) (some ["300"]) (some ["200"])
      = some (10, 20, 300, 200) ∧
    (recipe_create db1 [] sess1
        { baseCreate with
            steps_body := ["mix"],
            steps_image := [some ⟨"st.jpg", .valid 2000 1000 false⟩],
            steps_crop_x := some ["10"], steps_crop_y := some ["20"],
            steps_crop_w := some ["300"], steps_crop_h := some ["200"] }
        "m.webp" (fun _ => "s.webp")).2.2
      = [("s.webp", .processed ⟨1600, 800, none⟩)] ∧
    (save_step_image (some ⟨"st.jpg", .valid 2000 1000 false⟩) "s.webp"
        (some 10) (some 20) (some 300) (some 200)).2
      = [("s.webp", .processed ⟨1200, 675, some (10, 20, 300, 200)⟩)] := by
  decide

/-- C5 (counterexample): the claim says the clamp keeps every fully
specified crop rectangle (even one exceeding the image bounds) inside the
source image and that crop-and-resize never throws, producing a 1200×675
output. For a 100×100 image and rectangle (200, 0, 50, 50), the clamp
computes width `min(50, 100−200) = −100`: the rectangle is not within the
image, PIL's crop raises (`right < left`), the exception is swallowed, and
the stored file keeps the raw bytes instead of a 1200×675 image. -/
theorem c5_counterexample_clamp_goes_negative :
    clampMainRect 100 100 200 0 50 50 = (200, 0, -100, 50) ∧
    decide (rectWithin 100 100 (clampMainRect 100 100 200 0 50 50)) = false ∧
    processMainImage (.valid 100 100 false) (some 200) (some 0) (some 50) (some 50)
      = .raw (.valid 100 100 false) := by
  decide

/-- C5 (amended): whenever the clamped corner lies within the downscaled
image (`max 0 x ≤ width` and `max 0 y ≤ height`), the clamped rectangle
stays inside the image (non-negative width/height, right and bottom edges
within bounds; width and height are at least 1, i.e. `rectWithin`, exactly
when the corner is strictly inside), the crop does not throw — at the
edge the box degenerates to `right == left`, which PIL's strict check
accepts — and the output is exactly 1200×675.  Only when the clamped x or
y lies strictly beyond the edge is the computed width or height negative:
then the crop raises, the exception is swallowed, and the raw uploaded
bytes remain instead of a 1200×675 output. -/
theorem c5_crop_in_bounds_when_corner_inside (w h : Nat) (swap : Bool)
    (cx cy cw ch : Int) :
    (max 0 cx ≤ ((downscaledDims w h swap).1 : Int) →
      max 0 cy ≤ ((downscaledDims w h swap).2 : Int) →
      0 ≤ (clampMainRect (downscaledDims w h swap).1 (downscaledDims w h swap).2
        cx cy cw ch).1 ∧
      0 ≤ (clampMainRect (downscaledDims w h swap).1 (downscaledDims w h swap).2
        cx cy cw ch).2.1 ∧
      0 ≤ (clampMainRect (downscaledDims w h swap).1 (downscaledDims w h swap).2
        cx cy cw ch).2.2.1 ∧
      0 ≤ (clampMainRect (downscaledDims w h swap).1 (downscaledDims w h swap).2
        cx cy cw ch).2.2.2 ∧
      (clampMainRect (downscaledDims w h swap).1 (downscaledDims w h swap).2
          cx cy cw ch).1
        + (clampMainRect (downscaledDims w h swap).1 (downscaledDims w h swap).2
          cx cy cw ch).2.2.1 ≤ ((downscaledDims w h swap).1 : Int) ∧
      (clampMainRect (downscaledDims w h swap).1 (downscaledDims w h swap).2
          cx cy cw ch).2.1
        + (clampMainRect (downscaledDims w h swap).1 (downscaledDims w h swap).2
          cx cy cw ch).2.2.2 ≤ ((downscaledDims w h swap).2 : Int) ∧
      processMainImage (.valid w h swap) (some cx) (some cy) (some cw) (some ch)
        = .processed ⟨1200, 675, some (clampMainRect (downscaledDims w h swap).1
            (downscaledDims w h swap).2 cx cy cw ch)⟩) ∧
    (max 0 cx < ((downscaledDims w h swap).1 : Int) →
      max 0 cy < ((downscaledDims w h swap).2 : Int) →
      rectWithin (downscaledDims w h swap).1 (downscaledDims w h swap).2
        (clampMainRect (downscaledDims w h swap).1 (downscaledDims w h swap).2
          cx cy cw ch)) ∧
    (((downscaledDims w h swap).1 : Int) < max 0 cx ∨
        ((downscaledDims w h swap).2 : Int) < max 0 cy →
      processMainImage (.valid w h swap) (some cx) (some cy) (some cw) (some ch)
        = .raw (.valid w h swap)) := by
  have hR : clampMainRect (downscaledDims w h swap).1 (downscaledDims w h swap).2
        cx cy cw ch
      = (max 0 cx, max 0 cy,
         min (max 1 cw) (((downscaledDims w h swap).1 : Int) - max 0 cx),
         min (max 1 ch) (((downscaledDims w h swap).2 : Int) - max 0 cy)) := rfl
  have hprocEq : processMainImage (.valid w h swap) (some cx) (some cy) (some cw)
        (some ch)
      = if (clampMainRect (downscaledDims w h swap).1 (downscaledDims w h swap).2
            cx cy cw ch).2.2.1 < 0 ∨
          (clampMainRect (downscaledDims w h swap).1 (downscaledDims w h swap).2
            cx cy cw ch).2.2.2 < 0
        then .raw (.valid w h swap)
        else .processed ⟨1200, 675, some (clampMainRect (downscaledDims w h swap).1
            (downscaledDims w h swap).2 cx cy cw ch)⟩ := rfl
  refine ⟨?_, ?_, ?_⟩
  · intro hx hy
    refine ⟨?_, ?_, ?_, ?_, ?_, ?_, ?_⟩
    · rw [hR]; exact le_max_left 0 cx
    · rw [hR]; exact le_max_left 0 cy
    · rw [hR]; dsimp only; omega
    · rw [hR]; dsimp only; omega
    · rw [hR]; dsimp only; omega
    · rw [hR]; dsimp only; omega
    · rw [hprocEq, if_neg ?_]
      rw [hR]; dsimp only; omega
  · intro hx hy
    unfold rectWithin
    rw [hR]
    dsimp only
    refine ⟨le_max_left 0 cx, le_max_left 0 cy, ?_, ?_, ?_, ?_⟩ <;> omega
  · intro hbe
    rw [hprocEq, if_pos ?_]
    rw [hR]; dsimp only; omega

/-- C5 witness: the amended theorem at a 100×100 image, (i) with crop
rectangle (10, 10, 500, 500), clamped to (10, 10, 90, 90) (strictly
inside: `rectWithin` and a 1200×675 output), (ii) with x exactly at the
right edge (100, 10, 500, 500), where the crop degenerates but still does
not throw and the output is 1200×675, and (iii) with x strictly beyond
the edge (200, 0, 50, 50), where the crop raises and the raw bytes
remain. -/
theorem c5_crop_in_bounds_witness :
    max 0 (10 : Int) ≤ ((downscaledDims 100 100 false).1 : Int) ∧
    rectWithin (downscaledDims 100 100 false).1 (downscaledDims 100 100 false).2
      (clampMainRect (downscaledDims 100 100 false).1
        (downscaledDims 100 100 false).2 10 10 500 500) ∧
    processMainImage (.valid 100 100 false) (some 10) (some 10) (some 500)
        (some 500)
      = .processed ⟨1200, 675, some (clampMainRect (downscaledDims 100 100 false).1
          (downscaledDims 100 100 false).2 10 10 500 500)⟩ ∧
    processMainImage (.valid 100 100 false) (some 100) (some 10) (some 500)
        (some 500)
      = .processed ⟨1200, 675, some (clampMainRect (downscaledDims 100 100 false).1
          (downscaledDims 100 100 false).2 100 10 500 500)⟩ ∧
    processMainImage (.valid 100 100 false) (some 200) (some 0) (some 50)
        (some 50)
      = .raw (.valid 100 100 false) :=
  ⟨by decide,
   (c5_crop_in_bounds_when_corner_inside 100 100 false 10 10 500 500).2.1
     (by decide) (by decide),
   ((c5_crop_in_bounds_when_corner_inside 100 100 false 10 10 500 500).1
     (by decide) (by decide)).2.2.2.2.2.2,
   ((c5_crop_in_bounds_when_corner_inside 100 100 false 100 10 500 500).1
     (by decide) (by decide)).2.2.2.2.2.2,
   (c5_crop_in_bounds_when_corner_inside 100 100 false 200 0 50 50).2.2
     (by decide)⟩

/-- C6: a crop rectangle that is only partially specified (at least one of
the four components absent or unparseable, i.e. `_to_float_or_none`
returns `None` for it) makes the main-image pipeline behave exactly as if
no crop were supplied at all, producing the full downscaled image rather
than a 1200×675 crop. -/
theorem c6_partial_crop_same_as_no_crop (img : ImageData) (x y w h : Option String)
    (iw ih : Nat) (sw : Bool)
    (hpart : _to_float_or_none x = none ∨ _to_float_or_none y = none ∨
      _to_float_or_none w = none ∨ _to_float_or_none h = none) :
    processMainImage img (_to_float_or_none x) (_to_float_or_none y)
        (_to_float_or_none w) (_to_float_or_none h)
      = processMainImage img none none none none ∧
    processMainImage (.valid iw ih sw) none none none none
      = .processed ⟨(downscaledDims iw ih sw).1, (downscaledDims iw ih sw).2, none⟩ := by
  refine ⟨?_, rfl⟩
  rcases hpart with h0 | h0 | h0 | h0 <;> rw [h0] <;> cases img <;>
    cases _to_float_or_none x <;> cases _to_float_or_none y <;>
    cases _to_float_or_none w <;> cases _to_float_or_none h <;> rfl

/-- C6 witness: three of four components supplied (`crop_y` missing) on an
800×600 image gives the same pipeline result as no crop at all. -/
theorem c6_partial_crop_witness :
    _to_float_or_none (none : Option String) = none ∧
    processMainImage (.valid 800 600 false) (_to_float_or_none (some "10"))
        (_to_float_or_none none) (_to_float_or_none (some "300"))
        (_to_float_or_none (some "200"))
      = processMainImage (.valid 800 600 false) none none none none :=
  ⟨rfl,
   (c6_partial_crop_same_as_no_crop (.valid 800 600 false) (some "10") none
      (some "300") (some "200") 800 600 false (Or.inr (Or.inl rfl))).1⟩

/-- C8 (code bug): the spec says an unauthenticated request to a protected
route is answered with a redirect to the login page, and the comment in
`_require_login` (line 113) announces a 303 redirect — but the function
raises `HTTPException(401, "Login required")`, so `GET /favorites` with no
session user returns a 401 error page, not a redirect. -/
theorem c8_favorites_unauthenticated_401_not_redirect :
    favorites_page emptyDB ⟨none, some "tok"⟩ "new"
      = .httpError 401 "Login required" ∧
    decide (favorites_page emptyDB ⟨none, some "tok"⟩ "new"
      = .redirect "/login" 303) = false := by
  decide

/-- C7: creating a recipe from a valid submission (logged in, valid token,
no blank ingredient names or step bodies, no more step-image slots than
step bodies, and the fresh recipe id unused by any existing child row) and
then fetching it returns the ingredients and steps in exactly the
submitted order, with `order_no` running 0, 1, 2, … in each list. -/
theorem c7_create_then_fetch_in_order (db : DB) (media : Media)
    (sess : SessionData) (inp : CreateInput) (mainF : String)
    (stepF : Nat → String) (u : UserRow)
    (huser : get_current_user db sess = some u)
    (hcsrf : verify_csrf sess inp.csrf_token = true)
    (hnames : ∀ s ∈ inp.ingredients_name, stripS s ≠ "")
    (hbodies : ∀ s ∈ inp.steps_body, stripS s ≠ "")
    (himgs : inp.steps_image.length ≤ inp.steps_body.length)
    (hfreshI : ∀ i ∈ db.ingredients, i.recipe_id ≠ nextRecipeId db)
    (hfreshS : ∀ st ∈ db.steps, st.recipe_id ≠ nextRecipeId db) :
    (fetchIngredients (recipe_create db media sess inp mainF stepF).2.1
        (nextRecipeId db)).map (fun i => i.name)
      = inp.ingredients_name.map stripS ∧
    (fetchIngredients (recipe_create db media sess inp mainF stepF).2.1
        (nextRecipeId db)).map (fun i => i.order_no)
      = List.range inp.ingredients_name.length ∧
    (fetchSteps (recipe_create db media sess inp mainF stepF).2.1
        (nextRecipeId db)).map (fun st => st.body)
      = inp.steps_body.map stripS ∧
    (fetchSteps (recipe_create db media sess inp mainF stepF).2.1
        (nextRecipeId db)).map (fun st => st.order_no)
      = List.range inp.steps_body.length := by
  obtain ⟨hing, hstp⟩ :=
    recipe_create_success_tables db media sess inp mainF stepF u huser hcsrf
  unfold createIngredientRows at hing
  unfold createStepRows at hstp
  have hmax : max inp.steps_body.length inp.steps_image.length
      = inp.steps_body.length := Nat.max_eq_left himgs
  rw [hmax] at hstp
  have ispec := createIngredientRowsAux_spec (nextRecipeId db)
    inp.ingredients_amount inp.ingredients_unit inp.ingredients_name 0 hnames
  have sspec := createStepRowsAux_spec (nextRecipeId db) inp.steps_body
    inp.steps_image inp.steps_crop_x inp.steps_crop_y inp.steps_crop_w
    inp.steps_crop_h stepF hbodies inp.steps_body.length 0 (by omega)
  have hfI : ((recipe_create db media sess inp mainF stepF).2.1.ingredients.filter
        (fun i => i.recipe_id == nextRecipeId db))
      = createIngredientRowsAux (nextRecipeId db) inp.ingredients_amount
          inp.ingredients_unit 0 inp.ingredients_name := by
    rw [hing, List.filter_append]
    have h1 : db.ingredients.filter (fun i => i.recipe_id == nextRecipeId db) = [] := by
      rw [List.filter_eq_nil_iff]
      intro a ha
      simp only [beq_iff_eq]
      exact hfreshI a ha
    have h2 : ((createIngredientRowsAux (nextRecipeId db) inp.ingredients_amount
          inp.ingredients_unit 0 inp.ingredients_name).filter
          (fun i => i.recipe_id == nextRecipeId db))
        = createIngredientRowsAux (nextRecipeId db) inp.ingredients_amount
            inp.ingredients_unit 0 inp.ingredients_name := by
      rw [List.filter_eq_self]
      intro a ha
      simp only [beq_iff_eq]
      exact ispec.2.2 a ha
    rw [h1, h2, List.nil_append]
  have hfS : ((recipe_create db media sess inp mainF stepF).2.1.steps.filter
        (fun st => st.recipe_id == nextRecipeId db))
      = (createStepRowsAux (nextRecipeId db) inp.steps_body inp.steps_image
          inp.steps_crop_x inp.steps_crop_y inp.steps_crop_w inp.steps_crop_h
          stepF 0 inp.steps_body.length).1 := by
    rw [hstp, List.filter_append]
    have h1 : db.steps.filter (fun st => st.recipe_id == nextRecipeId db) = [] := by
      rw [List.filter_eq_nil_iff]
      intro a ha
      simp only [beq_iff_eq]
      exact hfreshS a ha
    have h2 : (((createStepRowsAux (nextRecipeId db) inp.steps_body inp.steps_image
          inp.steps_crop_x inp.steps_crop_y inp.steps_crop_w inp.steps_crop_h
          stepF 0 inp.steps_body.length).1).filter
          (fun st => st.recipe_id == nextRecipeId db))
        = (createStepRowsAux (nextRecipeId db) inp.steps_body inp.steps_image
            inp.steps_crop_x inp.steps_crop_y inp.steps_crop_w inp.steps_crop_h
            stepF 0 inp.steps_body.length).1 := by
      rw [List.filter_eq_self]
      intro a ha
      simp only [beq_iff_eq]
      exact sspec.2.2 a ha
    rw [h1, h2, List.nil_append]
  have hsortI := sortKey_eq_self (fun i : IngredientRow => i.order_no) _
    (pairwise_le_of_map_range' _ _ 0 inp.ingredients_name.length ispec.2.1)
  have hsortS := sortKey_eq_self (fun st : StepRow => st.order_no) _
    (pairwise_le_of_map_range' _ _ 0 inp.steps_body.length sspec.2.1)
  have hFI : fetchIngredients (recipe_create db media sess inp mainF stepF).2.1
        (nextRecipeId db)
      = createIngredientRowsAux (nextRecipeId db) inp.ingredients_amount
          inp.ingredients_unit 0 inp.ingredients_name := by
    unfold fetchIngredients
    rw [hfI, hsortI]
  have hFS : fetchSteps (recipe_create db media sess inp mainF stepF).2.1
        (nextRecipeId db)
      = (createStepRowsAux (nextRecipeId db) inp.steps_body inp.steps_image
          inp.steps_crop_x inp.steps_crop_y inp.steps_crop_w inp.steps_crop_h
          stepF 0 inp.steps_body.length).1 := by
    unfold fetchSteps
    rw [hfS, hsortS]
  refine ⟨?_, ?_, ?_, ?_⟩
  · rw [hFI, ispec.1]
  · rw [hFI, ispec.2.1, List.range_eq_range']
  · rw [hFS]
    have hs1 := sspec.1
    rw [List.drop_zero] at hs1
    rw [hs1]
  · rw [hFS, sspec.2.1, List.range_eq_range']

/-- C7 witness: the theorem at a concrete two-ingredient, two-step
submission in a fresh database. -/
theorem c7_create_then_fetch_witness :
    get_current_user db1 sess1 = some user1 ∧
    verify_csrf sess1 omeletteInput.csrf_token = true ∧
    (fetchIngredients (recipe_create db1 [] sess1 omeletteInput "m.webp"
        (fun _ => "s.webp")).2.1 (nextRecipeId db1)).map (fun i => i.name)
      = omeletteInput.ingredients_name.map stripS ∧
    (fetchIngredients (recipe_create db1 [] sess1 omeletteInput "m.webp"
        (fun _ => "s.webp")).2.1 (nextRecipeId db1)).map (fun i => i.order_no)
      = List.range omeletteInput.ingredients_name.length ∧
    (fetchSteps (recipe_create db1 [] sess1 omeletteInput "m.webp"
        (fun _ => "s.webp")).2.1 (nextRecipeId db1)).map (fun st => st.body)
      = omeletteInput.steps_body.map stripS ∧
    (fetchSteps (recipe_create db1 [] sess1 omeletteInput "m.webp"
        (fun _ => "s.webp")).2.1 (nextRecipeId db1)).map (fun st => st.order_no)
      = List.range omeletteInput.steps_body.length := by
  have h := c7_create_then_fetch_in_order db1 [] sess1 omeletteInput "m.webp"
    (fun _ => "s.webp") user1 (by decide) (by decide) (by decide) (by decide)
    (by decide) (by decide) (by decide)
  exact ⟨by decide, by decide, h.1, h.2.1, h.2.2.1, h.2.2.2⟩

/-- C9: a successful edit recreates every ingredient row of the recipe
with `unit = None` — the edit form has no per-ingredient unit field — even
when the pre-edit rows carried non-null units; any row still carrying a
unit belongs to a different recipe. -/
theorem c9_edit_recreates_units_null (db : DB) (media : Media)
    (sess : SessionData) (rid : Nat) (inp : UpdateInput) (mainF : String)
    (stepF : Nat → String) (u : UserRow) (r : RecipeRow)
    (huser : get_current_user db sess = some u)
    (hcsrf : verify_csrf sess inp.csrf_token = true)
    (hfind : db.recipes.find? (fun x => x.id == rid) = some r)
    (howner : r.author_id = some u.id) :
    (recipe_update db media sess rid inp mainF stepF).1
      = .redirect ("/recipes/" ++ toString rid) 303 ∧
    ∀ i ∈ (recipe_update db media sess rid inp mainF stepF).2.1.ingredients,
      i.recipe_id = rid → i.unit = none := by
  have hshape : (recipe_update db media sess rid inp mainF stepF).1
        = .redirect ("/recipes/" ++ toString rid) 303 ∧
      (recipe_update db media sess rid inp mainF stepF).2.1.ingredients
        = db.ingredients.filter (fun i => i.recipe_id != rid)
          ++ updateIngredientRows rid (inp.ingredients_name.getD [])
              (inp.ingredients_amount.getD []) := by
    unfold recipe_update
    rw [huser]
    dsimp only
    rw [hcsrf, if_neg (by decide : ¬ (true = false)), hfind]
    dsimp only
    rw [howner, beq_self_eq_true, if_neg (by decide : ¬ (true = false))]
    dsimp only
    rw [addTags_ingredients]
    exact ⟨rfl, rfl⟩
  refine ⟨hshape.1, ?_⟩
  intro i hi hrid
  rw [hshape.2] at hi
  rcases List.mem_append.mp hi with h1 | h1
  · have hp := List.of_mem_filter h1
    simp only [bne_iff_ne, ne_eq] at hp
    exact absurd hrid hp
  · exact (updateIngredientRowsAux_unit rid (inp.ingredients_amount.getD [])
      (inp.ingredients_name.getD []) 0 i h1).2

/-- C9 witness: editing `recipeA`, whose pre-edit ingredient had
`unit = some "pcs"`, leaves exactly one ingredient row with `unit = none`. -/
theorem c9_edit_units_witness :
    db2.recipes.find? (fun x => x.id == 1) = some recipeA ∧
    (recipe_update db2 [] sess1 1
        { baseUpdate with ingredients_name := some ["egg"],
                          ingredients_amount := some ["3"] }
        "m.webp" (fun _ => "s.webp")).1
      = .redirect ("/recipes/" ++ toString 1) 303 ∧
    (recipe_update db2 [] sess1 1
        { baseUpdate with ingredients_name := some ["egg"],
                          ingredients_amount := some ["3"] }
        "m.webp" (fun _ => "s.webp")).2.1.ingredients
      = [⟨1, "egg", some "3", none, 0⟩] := by
  have h := c9_edit_recreates_units_null db2 [] sess1 1
    { baseUpdate with ingredients_name := some ["egg"],
                      ingredients_amount := some ["3"] }
    "m.webp" (fun _ => "s.webp") user1 recipeA
    (by decide) (by decide) (by decide) (by decide)
  exact ⟨by decide, h.1, by decide⟩

/-- C10: for a logged-in user with a valid token, `POST
/recipes/{rid}/favorite` inserts the `Favorite(user_id, rid)` row when
none exists and answers with a 303 redirect — for every `rid`, with no
check that a `Recipe` row with that id exists, so a favorite of a
nonexistent recipe is created. -/
theorem c10_favorite_inserts_without_recipe_check (db : DB)
    (sess : SessionData) (rid : Nat) (tok : String) (u : UserRow)
    (huser : get_current_user db sess = some u)
    (hcsrf : verify_csrf sess tok = true)
    (hnofav : db.favorites.find?
      (fun f => f.user_id == u.id && f.recipe_id == rid) = none) :
    favorite_recipe db sess rid tok
      = (.redirect ("/recipes/" ++ toString rid) 303,
         { db with favorites := db.favorites ++ [⟨u.id, rid⟩] }) := by
  unfold favorite_recipe
  rw [huser]
  dsimp only
  rw [hcsrf, if_neg (by decide : ¬ (true = false)), hnofav]
  rfl

/-- C10 witness: in a database with no recipes at all, favoriting recipe
id 7 inserts `Favorite(1, 7)` and redirects with 303. -/
theorem c10_favorite_witness :
    db1.recipes = [] ∧
    get_current_user db1 sess1 = some user1 ∧
    favorite_recipe db1 sess1 7 "tok"
      = (.redirect ("/recipes/" ++ toString 7) 303,
         { db1 with favorites := db1.favorites ++ [⟨user1.id, 7⟩] }) := by
  have h := c10_favorite_inserts_without_recipe_check db1 sess1 7 "tok" user1
    (by decide) (by decide) (by decide)
  exact ⟨rfl, by decide, h⟩

end CookShare
